import Mathlib

/-!
Verification of the AI-Price-Prediction-Oracle backend (shallow embedding).

The Python backend (src/backend/src) is embedded into Lean as pure
functions: network calls and ledger calls are replaced by explicit outcome
values passed in as inputs, Python floats are modelled as exact rationals,
machine wall-clock timestamps as integers (seconds since epoch), and
try/except blocks as case analysis on those outcome values.
-/

set_option autoImplicit false

namespace Oracle

/-! ## Python string primitives (ASCII fragment used by the backend) -/

/-- Python `str.upper` for ASCII characters. -/
def pyUpperChar (c : Char) : Char :=
  if 'a' ≤ c ∧ c ≤ 'z' then Char.ofNat (c.toNat - 32) else c

/-- Python `str.lower` for ASCII characters. -/
def pyLowerChar (c : Char) : Char :=
  if 'A' ≤ c ∧ c ≤ 'Z' then Char.ofNat (c.toNat + 32) else c

/-- Python `str.upper`. -/
def pyUpper (s : String) : String := String.mk (s.data.map pyUpperChar)

/-- Python `str.lower`. -/
def pyLower (s : String) : String := String.mk (s.data.map pyLowerChar)

/-- Python whitespace (`str.strip` default set). -/
def pyIsSpace (c : Char) : Bool :=
  c = ' ' ∨ c = '\t' ∨ c = '\n' ∨ c = '\r' ∨ c.toNat = 11 ∨ c.toNat = 12

/-- Python `str.strip` with no argument. -/
def pyStrip (s : String) : String :=
  String.mk (((s.data.dropWhile pyIsSpace).reverse.dropWhile pyIsSpace).reverse)

/-! ## scheduler.is_timeframe_expired (src/backend/src/scheduler.py, lines 36-116)

The ledger read `get_latest_prediction_by_timeframe` and the parsing
pipeline applied to the stored record collapse, for the purposes of the
expiration decision, to the following case analysis: either the read
raises, or it returns nothing, or it returns a record whose embedded
`raw_context` is empty, is invalid JSON, lacks a `generated_at` value, has
an unparseable one, or has a parseable timestamp. -/

/-- The state of the raw context embedded in the latest stored record, as
discovered by the parsing pipeline of `is_timeframe_expired`. -/
inductive RawContextState where
  | missing
  | invalidJson
  | noTimestamp
  | badTimestamp
  | timestamp (t : Int)
deriving DecidableEq

/-- The result of the ledger read for the latest prediction: either the
read raised (any message), or it returned nothing (falsy), or a record. -/
inductive LatestRead where
  | readError (msg : String)
  | ok (latest : Option RawContextState)
deriving DecidableEq

/-- The fixed duration table of `is_timeframe_expired` (seconds). -/
def timeframe_durations : List (String × Int) :=
  [("1h", 3600), ("4h", 14400), ("12h", 43200), ("24h", 86400),
   ("7d", 604800), ("30d", 2592000)]

/-- Source: `scheduler.is_timeframe_expired`, embedded over the case analysis of
the ledger read; `now` is the UTC wall clock in seconds. -/
def is_timeframe_expired (read : LatestRead) (timeframe : String) (now : Int) : Bool :=
  match read with
  | .readError _ => true
  | .ok none => true
  | .ok (some .missing) => true
  | .ok (some .invalidJson) => true
  | .ok (some .noTimestamp) => true
  | .ok (some .badTimestamp) => true
  | .ok (some (.timestamp t)) =>
    match timeframe_durations.lookup (pyLower timeframe) with
    | none => true
    | some d => decide (t + d ≤ now)

/-! ## scheduler._parse_symbols and the whitelist of run_once
(src/backend/src/scheduler.py, lines 30-33 and 261-280) -/

/-- Python `str.split(',')` over the character list (splitting on every
comma, keeping empty parts, as Python does). -/
def splitCommaChars : List Char → List (List Char)
  | [] => [[]]
  | c :: cs =>
    match splitCommaChars cs with
    | [] => [[]]
    | cur :: rest => if c = ',' then [] :: cur :: rest else (c :: cur) :: rest

/-- Python `value.split(',')`. -/
def splitComma (s : String) : List String :=
  (splitCommaChars s.data).map String.mk

/-- Source: `scheduler._parse_symbols`: split the `SYMBOLS` environment value on
commas, strip each part, drop empties, uppercase the rest. -/
def _parse_symbols (value : String) : List String :=
  (splitComma value).filterMap fun s =>
    let t := pyStrip s
    if t = "" then none else some (pyUpper t)

/-- The whitelist step of `scheduler.run_once`: with a non-empty parsed
whitelist, keep the contract symbols that are in it; otherwise keep all
contract symbols. -/
def symbols_to_update (contract_symbols : List String) (env_value : String) : List String :=
  let env_symbols := _parse_symbols env_value
  if env_symbols.isEmpty then contract_symbols
  else contract_symbols.filter fun s => env_symbols.contains s

/-- Claim C1: the expiration check is fail-open (any read error, absent
record, missing or unparseable embedded timestamp, or unknown timeframe
yields `true`), compares `now ≥ generatedAt + duration(timeframe)` when a
timestamp is present, returns `false` exactly when the timestamp is
strictly within the window, and uses the fixed duration table
1h/4h/12h/24h/7d/30d. -/
theorem is_timeframe_expired_spec (read : LatestRead) (tf : String) (now : Int) :
    (is_timeframe_expired read tf now = false ↔
      ∃ t d, read = .ok (some (.timestamp t)) ∧
        timeframe_durations.lookup (pyLower tf) = some d ∧ now < t + d) ∧
    (∀ t d, read = .ok (some (.timestamp t)) →
      timeframe_durations.lookup (pyLower tf) = some d →
      (is_timeframe_expired read tf now = true ↔ t + d ≤ now)) ∧
    timeframe_durations.lookup "1h" = some 3600 ∧
    timeframe_durations.lookup "4h" = some 14400 ∧
    timeframe_durations.lookup "12h" = some 43200 ∧
    timeframe_durations.lookup "24h" = some 86400 ∧
    timeframe_durations.lookup "7d" = some 604800 ∧
    timeframe_durations.lookup "30d" = some 2592000 := by
  refine ⟨?_, ?_, rfl, rfl, rfl, rfl, rfl, rfl⟩
  · cases read with
    | readError m => simp [is_timeframe_expired]
    | ok o =>
      cases o with
      | none => simp [is_timeframe_expired]
      | some rc =>
        cases rc with
        | missing => simp [is_timeframe_expired]
        | invalidJson => simp [is_timeframe_expired]
        | noTimestamp => simp [is_timeframe_expired]
        | badTimestamp => simp [is_timeframe_expired]
        | timestamp t =>
          cases h : timeframe_durations.lookup (pyLower tf) with
          | none => simp [is_timeframe_expired, h]
          | some d =>
            simp only [is_timeframe_expired, h, decide_eq_false_iff_not, not_le,
              LatestRead.ok.injEq, Option.some.injEq, RawContextState.timestamp.injEq]
            constructor
            · intro hlt
              exact ⟨t, d, rfl, rfl, hlt⟩
            · rintro ⟨t', d', ht, hd, hlt⟩
              omega
  · rintro t d rfl hd
    simp [is_timeframe_expired, hd]

/-- Witness for C1, at the spec's scenario: timeframe `24h`, record
generated 25 hours before `now` (t = 0, now = 90000s) is expired. -/
theorem is_timeframe_expired_spec_witness :
    is_timeframe_expired (.ok (some (.timestamp 0))) "24h" 90000 = true :=
  ((is_timeframe_expired_spec (.ok (some (.timestamp 0))) "24h" 90000).2.1
    0 86400 rfl (by decide)).mpr (by decide)

/-- Claim C8: with a non-empty parsed whitelist the effective symbol set
is the intersection of the contract symbols with the whitelist; with an
empty or unset whitelist it is all contract symbols. -/
theorem symbols_to_update_spec (c : List String) (v : String) :
    (_parse_symbols v = [] → symbols_to_update c v = c) ∧
    (_parse_symbols v ≠ [] →
      ∀ s, s ∈ symbols_to_update c v ↔ s ∈ c ∧ s ∈ _parse_symbols v) := by
  constructor
  · intro h
    simp [symbols_to_update, h]
  · intro h s
    have hne : (_parse_symbols v).isEmpty = false := by
      cases hp : _parse_symbols v with
      | nil => exact absurd hp h
      | cons a l => rfl
    simp [symbols_to_update, hne, List.mem_filter, List.elem_iff]

/-- Witness for C8, at the spec's example: contract symbols BTC, ETH, SOL
with whitelist `ETH,SOL,DOGE` give exactly ETH and SOL; the empty
whitelist leaves all three. -/
theorem symbols_to_update_spec_witness :
    ("ETH" ∈ symbols_to_update ["BTC", "ETH", "SOL"] "ETH,SOL,DOGE" ↔
      "ETH" ∈ ["BTC", "ETH", "SOL"] ∧ "ETH" ∈ _parse_symbols "ETH,SOL,DOGE") ∧
    ("BTC" ∈ symbols_to_update ["BTC", "ETH", "SOL"] "ETH,SOL,DOGE" ↔
      "BTC" ∈ ["BTC", "ETH", "SOL"] ∧ "BTC" ∈ _parse_symbols "ETH,SOL,DOGE") ∧
    symbols_to_update ["BTC", "ETH", "SOL"] "" = ["BTC", "ETH", "SOL"] :=
  ⟨(symbols_to_update_spec ["BTC", "ETH", "SOL"] "ETH,SOL,DOGE").2 (by decide) "ETH",
   (symbols_to_update_spec ["BTC", "ETH", "SOL"] "ETH,SOL,DOGE").2 (by decide) "BTC",
   (symbols_to_update_spec ["BTC", "ETH", "SOL"] "").1 (by decide)⟩

/-! ## Rounding

Python's `round(x, 2)` on floats rounds half to even; over the exact
rational model it is round-half-even at two decimal places. -/

/-- Round half to even, to an integer. -/
def rhe (q : ℚ) : ℤ :=
  let f := ⌊q⌋
  if q - f < 1/2 then f
  else if 1/2 < q - f then f + 1
  else if f % 2 = 0 then f else f + 1

/-- Python `round(x, 2)` over exact rationals. -/
def round2 (q : ℚ) : ℚ := (rhe (q * 100) : ℚ) / 100

/-! ## Technical indicators (src/backend/src/context_builder.py,
`_fetch_ohlc_data`, lines 180-375; the Binance and CoinGecko branches run
the identical computation on the candle list) -/

/-- One OHLC candle `[timestamp, open, high, low, close, volume]`. -/
structure Candle where
  ts : Int
  openPrice : ℚ
  high : ℚ
  low : ℚ
  close : ℚ
  volume : ℚ
deriving DecidableEq

/-- Python `l[-n:]`: the last `n` elements (all of them when shorter). -/
def lastN (n : Nat) (l : List ℚ) : List ℚ := l.drop (l.length - n)

/-- Source: `current_price = closes[-1]`. -/
def current_price (closes : List ℚ) : ℚ := closes.getLastD 0

/-- Source: `prev_price = closes[-2] if len(closes) > 1 else current_price`. -/
def prev_price (closes : List ℚ) : ℚ :=
  if 1 < closes.length then (lastN 2 closes).headD 0 else current_price closes

/-- Source: `ma_7 = sum(closes[-7:]) / min(7, len(closes))`. -/
def ma_7 (closes : List ℚ) : ℚ :=
  (lastN 7 closes).sum / ((min 7 closes.length : ℕ) : ℚ)

/-- Source: `ma_20 = sum(closes[-20:]) / min(20, len(closes)) if len(closes) >= 20
else None`. -/
def ma_20 (closes : List ℚ) : Option ℚ :=
  if 20 ≤ closes.length then
    some ((lastN 20 closes).sum / ((min 20 closes.length : ℕ) : ℚ))
  else none

/-- Source: `price_change_24h = (current - prev) / prev * 100 if prev > 0 else 0`. -/
def price_change_24h (closes : List ℚ) : ℚ :=
  if 0 < prev_price closes then
    (current_price closes - prev_price closes) / prev_price closes * 100
  else 0

/-- The 14 period-over-period deltas `closes[-i] - closes[-i-1]`,
`i = 1..min(14, len(closes)-1)`, most recent first. -/
def last_deltas (closes : List ℚ) : List ℚ :=
  ((closes.reverse.zip closes.reverse.tail).take 14).map fun p => p.1 - p.2

/-- The per-delta gains (`change` when positive, else 0). -/
def gains (closes : List ℚ) : List ℚ :=
  (last_deltas closes).map fun d => if 0 < d then d else 0

/-- The per-delta losses (`abs(change)` when non-positive, else 0). -/
def losses (closes : List ℚ) : List ℚ :=
  (last_deltas closes).map fun d => if 0 < d then 0 else |d|

/-- Source: `avg_gain = sum(gains) / len(gains) if gains else 0`. -/
def avg_gain (closes : List ℚ) : ℚ :=
  if gains closes = [] then 0
  else (gains closes).sum / ((gains closes).length : ℚ)

/-- Source: `avg_loss = sum(losses) / len(losses) if losses else 0`. -/
def avg_loss (closes : List ℚ) : ℚ :=
  if losses closes = [] then 0
  else (losses closes).sum / ((losses closes).length : ℚ)

/-- RSI-14: defined only when at least 15 closes exist and `avg_loss > 0`;
then `rsi = 100 - 100 / (1 + avg_gain / avg_loss)`. -/
def rsi (closes : List ℚ) : Option ℚ :=
  if 15 ≤ closes.length then
    if 0 < avg_loss closes then
      some (100 - 100 / (1 + avg_gain closes / avg_loss closes))
    else none
  else none

/-- Source: `macd_signal = ma_7 - ma_20 if ma_20 else None`: Python truthiness, so
a present but zero `ma_20` also yields `None`. -/
def macd_signal (closes : List ℚ) : Option ℚ :=
  match ma_20 closes with
  | some m => if m = 0 then none else some (ma_7 closes - m)
  | none => none

/-- Maximum of a list (used on non-empty lists only). -/
def listMax (l : List ℚ) : ℚ := l.foldl max (l.headD 0)

/-- Minimum of a list (used on non-empty lists only). -/
def listMin (l : List ℚ) : ℚ := l.foldl min (l.headD 0)

/-- Source: `recent_high = max(highs[-20:]) if len(highs) >= 20 else max(highs)`
(both cases are the maximum of the last up-to-20 highs). -/
def recent_high (highs : List ℚ) : ℚ := listMax (lastN 20 highs)

/-- Source: `recent_low = min(lows[-20:]) if len(lows) >= 20 else min(lows)`. -/
def recent_low (lows : List ℚ) : ℚ := listMin (lastN 20 lows)

/-- Trend classification. -/
inductive Trend where
  | bullish
  | bearish
  | neutral
deriving DecidableEq

/-- The string the block stores for a trend. -/
def Trend.label : Trend → String
  | .bullish => "bullish"
  | .bearish => "bearish"
  | .neutral => "neutral"

/-- The trend determination: with a truthy `ma_20`, chained comparisons
against `ma_7` and `ma_20`; otherwise (absent or zero `ma_20`) price
versus `ma_7` alone. -/
def trend (closes : List ℚ) : Trend :=
  let cp := current_price closes
  let m7 := ma_7 closes
  match ma_20 closes with
  | some m20 =>
    if m20 = 0 then
      if m7 < cp then .bullish else if cp < m7 then .bearish else .neutral
    else if m20 < m7 ∧ m7 < cp then .bullish
    else if cp < m7 ∧ m7 < m20 then .bearish
    else .neutral
  | none =>
    if m7 < cp then .bullish else if cp < m7 then .bearish else .neutral

/-- The stored `ma_20` field: `round(ma_20, 2) if ma_20 else None`
(truthiness again: zero renders as `None`). -/
def out_ma_20 (closes : List ℚ) : Option ℚ :=
  match ma_20 closes with
  | some m => if m = 0 then none else some (round2 m)
  | none => none

/-- The stored `rsi` field: `round(rsi, 2) if rsi is not None else None`. -/
def out_rsi (closes : List ℚ) : Option ℚ := (rsi closes).map round2

/-- The stored `macd_signal` field:
`round(macd_signal, 2) if macd_signal is not None else None`. -/
def out_macd_signal (closes : List ℚ) : Option ℚ := (macd_signal closes).map round2

/-- The stored `price_above_ma20` field:
`current_price > ma_20 if ma_20 else None` (truthiness). -/
def out_price_above_ma20 (closes : List ℚ) : Option Bool :=
  match ma_20 closes with
  | some m => if m = 0 then none else some (decide (m < current_price closes))
  | none => none

theorem length_lastN (n : Nat) (l : List ℚ) : (lastN n l).length = min n l.length := by
  simp [lastN]
  omega

theorem gains_nonneg (closes : List ℚ) : ∀ x ∈ gains closes, 0 ≤ x := by
  intro x hx
  simp only [gains, List.mem_map] at hx
  obtain ⟨d, _, rfl⟩ := hx
  by_cases h : 0 < d
  · simp only [if_pos h]
    exact h.le
  · simp [h]

theorem losses_nonneg (closes : List ℚ) : ∀ x ∈ losses closes, 0 ≤ x := by
  intro x hx
  simp only [losses, List.mem_map] at hx
  obtain ⟨d, _, rfl⟩ := hx
  by_cases h : 0 < d <;> simp [h, abs_nonneg]

theorem avg_gain_nonneg (closes : List ℚ) : 0 ≤ avg_gain closes := by
  unfold avg_gain
  split
  · exact le_refl 0
  · exact div_nonneg (List.sum_nonneg (gains_nonneg closes)) (by positivity)

theorem avg_loss_nonneg (closes : List ℚ) : 0 ≤ avg_loss closes := by
  unfold avg_loss
  split
  · exact le_refl 0
  · exact div_nonneg (List.sum_nonneg (losses_nonneg closes)) (by positivity)

/-- Counterexample to claim C4 as stated: twenty candles whose closes are
all `0` are accepted (length ≥ 2 and ≥ 20), the mean of the last 20
closes is `0`, yet the stored `ma_20` is `None` and `macd_signal` is
`None` — the code's Python-truthiness test `if ma_20` drops a present but
zero twenty-period mean. -/
theorem c4_ma20_counterexample :
    2 ≤ (List.replicate 20 (0:ℚ)).length ∧
    20 ≤ (List.replicate 20 (0:ℚ)).length ∧
    ma_20 (List.replicate 20 (0:ℚ)) = some 0 ∧
    out_ma_20 (List.replicate 20 (0:ℚ)) = none ∧
    macd_signal (List.replicate 20 (0:ℚ)) = none := by
  have hma : ma_20 (List.replicate 20 (0:ℚ)) = some 0 := by
    norm_num [ma_20, lastN, List.sum_replicate]
  exact ⟨by norm_num, by norm_num, hma,
    by simp only [out_ma_20, hma]; norm_num,
    by simp only [macd_signal, hma]; norm_num⟩

/-- Claim C4 (amended): for any accepted series (≥ 2 candles), `ma7` is
the mean of the last up-to-7 closes; `ma_20` is the mean of the last 20
closes when ≥ 20 candles exist and `None` when fewer; but whenever that
twenty-close mean is exactly zero the stored `ma_20` and `macd_signal`
degrade to `None` (Python truthiness); for a present non-zero `ma_20`,
`macd_signal = ma_7 - ma_20`, stored rounded to 2 decimal places. -/
theorem c4_indicator_means (closes : List ℚ) (h2 : 2 ≤ closes.length) :
    ma_7 closes = (lastN 7 closes).sum / ((lastN 7 closes).length : ℚ) ∧
    (20 ≤ closes.length → ma_20 closes = some ((lastN 20 closes).sum / 20)) ∧
    (closes.length < 20 → ma_20 closes = none) ∧
    (∀ m, ma_20 closes = some m → m ≠ 0 →
      macd_signal closes = some (ma_7 closes - m) ∧
      out_ma_20 closes = some (round2 m) ∧
      out_macd_signal closes = some (round2 (ma_7 closes - m))) ∧
    (out_ma_20 closes = none ↔ ma_20 closes = none ∨ ma_20 closes = some 0) ∧
    (macd_signal closes = none ↔ ma_20 closes = none ∨ ma_20 closes = some 0) := by
  refine ⟨?_, ?_, ?_, ?_, ?_, ?_⟩
  · rw [ma_7, length_lastN]
  · intro h
    rw [ma_20, if_pos h]
    congr 1
    have : min 20 closes.length = 20 := by omega
    rw [this]
    norm_num
  · intro h
    rw [ma_20, if_neg (by omega)]
  · intro m hm hm0
    refine ⟨?_, ?_, ?_⟩
    · simp [macd_signal, hm, hm0]
    · simp [out_ma_20, hm, hm0]
    · simp [out_macd_signal, macd_signal, hm, hm0]
  · cases hm : ma_20 closes with
    | none => simp [out_ma_20, hm]
    | some m =>
      by_cases hm0 : m = 0 <;> simp [out_ma_20, hm, hm0]
  · cases hm : ma_20 closes with
    | none => simp [macd_signal, hm]
    | some m =>
      by_cases hm0 : m = 0 <;> simp [macd_signal, hm, hm0]

/-- Witness for C4 (amended), on the 20 closes `0 × 19, 1`: `ma_20` is
present and non-zero (`1/20`), and `macd_signal = ma_7 - ma_20`. -/
theorem c4_indicator_means_witness :
    macd_signal (List.replicate 19 (0:ℚ) ++ [1]) =
      some (ma_7 (List.replicate 19 (0:ℚ) ++ [1]) - 1/20) :=
  ((c4_indicator_means (List.replicate 19 (0:ℚ) ++ [1])
    (by norm_num)).2.2.2.1 (1/20)
    (by norm_num [ma_20, lastN, List.sum_append, List.sum_replicate])
    (by norm_num)).1

/-- Claim C5: RSI-14 is `None` exactly when fewer than 15 closes exist or
the average loss over the last 14 deltas is zero; when defined it equals
`100 - 100/(1 + avgGain/avgLoss)` and lies in `[0, 100]`. -/
theorem c5_rsi_spec (closes : List ℚ) :
    (rsi closes = none ↔ closes.length < 15 ∨ avg_loss closes = 0) ∧
    (∀ r, rsi closes = some r →
      r = 100 - 100 / (1 + avg_gain closes / avg_loss closes) ∧
      0 ≤ r ∧ r ≤ 100) := by
  constructor
  · by_cases hlen : 15 ≤ closes.length
    · rw [rsi, if_pos hlen]
      by_cases hl : 0 < avg_loss closes
      · rw [if_pos hl]
        simp only [reduceCtorEq, false_iff, not_or, not_lt]
        exact ⟨by omega, by linarith⟩
      · rw [if_neg hl]
        have : avg_loss closes = 0 := le_antisymm (not_lt.mp hl) (avg_loss_nonneg closes)
        simp [this]
    · rw [rsi, if_neg hlen]
      have hlt : closes.length < 15 := by omega
      simp [hlt]
  · intro r hr
    rw [rsi] at hr
    by_cases hlen : 15 ≤ closes.length
    · rw [if_pos hlen] at hr
      by_cases hl : 0 < avg_loss closes
      · rw [if_pos hl] at hr
        have hval : r = 100 - 100 / (1 + avg_gain closes / avg_loss closes) :=
          (Option.some.injEq _ _ ▸ hr).symm
        have hg : 0 ≤ avg_gain closes := avg_gain_nonneg closes
        have hrs : 0 ≤ avg_gain closes / avg_loss closes := div_nonneg hg hl.le
        have hden : (0:ℚ) < 1 + avg_gain closes / avg_loss closes := by linarith
        have hle : 100 / (1 + avg_gain closes / avg_loss closes) ≤ 100 :=
          div_le_self (by norm_num) (by linarith)
        have hpos : 0 < 100 / (1 + avg_gain closes / avg_loss closes) :=
          div_pos (by norm_num) hden
        exact ⟨hval, by rw [hval]; linarith, by rw [hval]; linarith⟩
      · rw [if_neg hl] at hr
        exact absurd hr (by simp)
    · rw [if_neg hlen] at hr
      exact absurd hr (by simp)

/-- Witness for C5: fifteen closes `10 × 14, 9` have `avg_loss = 1/14 > 0`
and RSI `0`, which satisfies the formula and the bounds. -/
theorem c5_rsi_spec_witness :
    (0:ℚ) = 100 - 100 /
      (1 + avg_gain [10, 10, 10, 10, 10, 10, 10, 10, 10, 10, 10, 10, 10, 10, 9] /
        avg_loss [10, 10, 10, 10, 10, 10, 10, 10, 10, 10, 10, 10, 10, 10, 9]) ∧
    0 ≤ (0:ℚ) ∧ (0:ℚ) ≤ 100 :=
  (c5_rsi_spec [10, 10, 10, 10, 10, 10, 10, 10, 10, 10, 10, 10, 10, 10, 9]).2 0 (by
    have h1 : avg_loss [(10:ℚ), 10, 10, 10, 10, 10, 10, 10, 10, 10, 10, 10, 10, 10, 9] = 1/14 := by
      norm_num [avg_loss, losses, last_deltas]
      exact List.cons_ne_nil _ _
    have h2 : avg_gain [(10:ℚ), 10, 10, 10, 10, 10, 10, 10, 10, 10, 10, 10, 10, 10, 9] = 0 := by
      norm_num [avg_gain, gains, last_deltas]
    rw [rsi, if_pos (by norm_num), if_pos (by rw [h1]; norm_num), h1, h2]
    norm_num)

/-! ## Price and OHLC fetching (src/backend/src/context_builder.py)

Network responses are modelled as outcome values. A primary (Binance)
mirror attempt either returns HTTP 200 with parsed floats, returns 400
(skip to the next mirror), returns some other status (the loop body falls
through to the next mirror), or raises (also next mirror). A secondary
(CoinGecko) attempt either returns 200 with a payload, returns status 429,
raises `httpx.HTTPStatusError` from `raise_for_status`, or raises some
other exception. `time.sleep` calls are recorded as a list of slept
seconds. -/

/-- Outcome of one Binance mirror attempt in `_fetch_price_binance`. -/
inductive MirrorOutcome where
  | ok (spot : ℚ) (change : ℚ)
  | badRequest
  | otherStatus (code : Nat)
  | exc (msg : String)
deriving DecidableEq

/-- Source: `_fetch_price_binance`: the first mirror that answers HTTP 200 wins;
every other outcome falls through to the next mirror; `None` if all six
mirrors fail. -/
def _fetch_price_binance (mirrors : List MirrorOutcome) : Option (ℚ × ℚ) :=
  mirrors.findSome? fun m =>
    match m with
    | .ok s c => some (s, c)
    | _ => none

/-- Outcome of one CoinGecko simple-price attempt. -/
inductive CGPriceOutcome where
  | ok (spot : Option ℚ) (change : Option ℚ)
  | status429
  | httpStatusError (code : Nat) (msg : String)
  | exc (msg : String)
deriving DecidableEq

/-- A price block: data (spot, 24h change, source) or an error record. -/
inductive PriceBlock where
  | ok (spot : Option ℚ) (change : Option ℚ) (source : String)
  | err (msg : String)
deriving DecidableEq

/-- The CoinGecko retry loop of `_fetch_price` (`for attempt in
range(retries)`): `fuel` is the number of attempts left, `attempt` the
0-based index of the current one. Status 429 (and an `HTTPStatusError`
carrying 429) backs off `2**attempt * 2` seconds and retries while
attempts remain; any other `HTTPStatusError` or exception returns an
error immediately. The second component lists the sleeps performed. -/
def cg_price_aux (outs : Nat → CGPriceOutcome) : Nat → Nat → PriceBlock × List ℕ
  | 0, _ => (.err "Failed after retries", [])
  | fuel + 1, attempt =>
    match outs attempt with
    | .ok s c => (.ok s c "coingecko", [])
    | .status429 =>
      if fuel = 0 then (.err "Rate limit exceeded after retries", [])
      else
        let r := cg_price_aux outs fuel (attempt + 1)
        (r.1, 2 ^ attempt * 2 :: r.2)
    | .httpStatusError code msg =>
      if code = 429 ∧ fuel ≠ 0 then
        let r := cg_price_aux outs fuel (attempt + 1)
        (r.1, 2 ^ attempt * 2 :: r.2)
      else (.err ("HTTP " ++ toString code ++ ": " ++ msg), [])
    | .exc msg => (.err msg, [])

/-- Source: `_fetch_price`: Binance mirrors first; on total primary failure, the
CoinGecko fallback with `retries` attempts. -/
def _fetch_price (mirrors : List MirrorOutcome) (cg_outs : Nat → CGPriceOutcome)
    (retries : Nat) : PriceBlock × List ℕ :=
  match _fetch_price_binance mirrors with
  | some (s, c) => (.ok (some s) (some c) "binance", [])
  | none => cg_price_aux cg_outs retries 0

/-- Outcome of one CoinGecko OHLC attempt. -/
inductive CGOhlcOutcome where
  | ok (candles : List Candle)
  | status429
  | httpStatusError (code : Nat) (msg : String)
  | exc (msg : String)
deriving DecidableEq

/-- The indicator block of `_fetch_ohlc_data`: a computed block over a
candle list, the empty block (`{}`, returned on fewer than 2 candles from
the secondary source), or an error record. -/
inductive IndicatorResult where
  | block (candles : List Candle) (source : String)
  | empty
  | err (msg : String)
deriving DecidableEq

/-- Whether an indicator result is the error record. -/
def IndicatorResult.isErr : IndicatorResult → Bool
  | .err _ => true
  | _ => false

/-- The CoinGecko retry loop of `_fetch_ohlc_data`. Unlike the price
loop, its final `except Exception` clause also sleeps and retries on any
exception that is not an `HTTPStatusError`, as long as attempts remain. -/
def cg_ohlc_aux (outs : Nat → CGOhlcOutcome) : Nat → Nat → IndicatorResult × List ℕ
  | 0, _ => (.err "Failed after retries", [])
  | fuel + 1, attempt =>
    match outs attempt with
    | .ok candles =>
      if candles.length < 2 then (.empty, [])
      else (.block candles "coingecko", [])
    | .status429 =>
      if fuel = 0 then (.err "Rate limit exceeded after retries", [])
      else
        let r := cg_ohlc_aux outs fuel (attempt + 1)
        (r.1, 2 ^ attempt * 2 :: r.2)
    | .httpStatusError code msg =>
      if code = 429 ∧ fuel ≠ 0 then
        let r := cg_ohlc_aux outs fuel (attempt + 1)
        (r.1, 2 ^ attempt * 2 :: r.2)
      else (.err ("HTTP " ++ toString code ++ ": " ++ msg), [])
    | .exc msg =>
      if fuel ≠ 0 then
        let r := cg_ohlc_aux outs fuel (attempt + 1)
        (r.1, 2 ^ attempt * 2 :: r.2)
      else (.err msg, [])

/-- Source: `_fetch_ohlc_data`: the Binance klines result when it has at least 2
candles, otherwise the CoinGecko fallback. -/
def _fetch_ohlc_data (binance_ohlc : Option (List Candle)) (cg_outs : Nat → CGOhlcOutcome)
    (retries : Nat) : IndicatorResult × List ℕ :=
  match binance_ohlc with
  | some candles =>
    if 2 ≤ candles.length then (.block candles "binance", [])
    else cg_ohlc_aux cg_outs retries 0
  | none => cg_ohlc_aux cg_outs retries 0

/-- Retryability for the price loop: 429 only. -/
def price_retryable : CGPriceOutcome → Bool
  | .status429 => true
  | .httpStatusError code _ => code = 429
  | .ok _ _ => false
  | .exc _ => false

/-- What the OHLC loop may retry on: 429 or any plain exception. -/
def ohlc_retryable : CGOhlcOutcome → Bool
  | .status429 => true
  | .httpStatusError code _ => code = 429
  | .exc _ => true
  | .ok _ => false

theorem range_map_shift (k a : Nat) :
    ((List.range (k + 1)).map fun j => 2 ^ (a + j) * 2) =
      2 ^ a * 2 :: ((List.range k).map fun j => 2 ^ (a + 1 + j) * 2) := by
  rw [List.range_succ_eq_map, List.map_cons, List.map_map]
  have h1 : 2 ^ (a + 0) * 2 = 2 ^ a * 2 := by norm_num
  have h2 : ∀ j, ((fun j => 2 ^ (a + j) * 2) ∘ Nat.succ) j =
      (fun j => 2 ^ (a + 1 + j) * 2) j := by
    intro j
    have he : a + (j + 1) = a + 1 + j := by omega
    simp [Function.comp, Nat.succ_eq_add_one, he]
  rw [h1, funext h2]

theorem cg_price_aux_spec (outs : Nat → CGPriceOutcome) (fuel : Nat) :
    ∀ attempt,
      (cg_price_aux outs fuel attempt).2 =
        ((List.range (cg_price_aux outs fuel attempt).2.length).map
          fun j => 2 ^ (attempt + j) * 2) ∧
      (∀ j < (cg_price_aux outs fuel attempt).2.length,
        price_retryable (outs (attempt + j)) = true) ∧
      (cg_price_aux outs fuel attempt).2.length ≤ fuel - 1 := by
  induction fuel with
  | zero =>
    intro attempt
    simp [cg_price_aux]
  | succ n ih =>
    intro attempt
    cases houts : outs attempt with
    | ok s c => simp [cg_price_aux, houts]
    | exc msg => simp [cg_price_aux, houts]
    | status429 =>
      by_cases hn : n = 0
      · simp [cg_price_aux, houts, hn]
      · have IH := ih (attempt + 1)
        simp only [cg_price_aux, houts, if_neg hn]
        refine ⟨?_, ?_, ?_⟩
        · simp only [List.length_cons]
          rw [range_map_shift]
          exact congrArg _ IH.1
        · intro j hj
          cases j with
          | zero =>
            simp [houts, price_retryable]
          | succ j' =>
            simp only [List.length_cons, Nat.succ_lt_succ_iff] at hj
            have h := IH.2.1 j' hj
            have he : attempt + (j' + 1) = attempt + 1 + j' := by omega
            rw [he]
            exact h
        · simp only [List.length_cons]
          have := IH.2.2
          omega
    | httpStatusError code msg =>
      by_cases hc : code = 429 ∧ n ≠ 0
      · have IH := ih (attempt + 1)
        simp only [cg_price_aux, houts, if_pos hc]
        refine ⟨?_, ?_, ?_⟩
        · simp only [List.length_cons]
          rw [range_map_shift]
          exact congrArg _ IH.1
        · intro j hj
          cases j with
          | zero =>
            simp [houts, price_retryable, hc.1]
          | succ j' =>
            simp only [List.length_cons, Nat.succ_lt_succ_iff] at hj
            have h := IH.2.1 j' hj
            have he : attempt + (j' + 1) = attempt + 1 + j' := by omega
            rw [he]
            exact h
        · simp only [List.length_cons]
          have := IH.2.2
          omega
      · simp [cg_price_aux, houts, hc]

theorem cg_ohlc_aux_spec (outs : Nat → CGOhlcOutcome) (fuel : Nat) :
    ∀ attempt,
      (cg_ohlc_aux outs fuel attempt).2 =
        ((List.range (cg_ohlc_aux outs fuel attempt).2.length).map
          fun j => 2 ^ (attempt + j) * 2) ∧
      (∀ j < (cg_ohlc_aux outs fuel attempt).2.length,
        ohlc_retryable (outs (attempt + j)) = true) ∧
      (cg_ohlc_aux outs fuel attempt).2.length ≤ fuel - 1 := by
  induction fuel with
  | zero =>
    intro attempt
    simp [cg_ohlc_aux]
  | succ n ih =>
    intro attempt
    cases houts : outs attempt with
    | ok candles =>
      by_cases hlen : candles.length < 2
      · simp [cg_ohlc_aux, houts, hlen]
      · simp [cg_ohlc_aux, houts, hlen]
    | exc msg =>
      by_cases hn : n = 0
      · simp [cg_ohlc_aux, houts, hn]
      · have IH := ih (attempt + 1)
        simp only [cg_ohlc_aux, houts, if_pos hn]
        refine ⟨?_, ?_, ?_⟩
        · simp only [List.length_cons]
          rw [range_map_shift]
          exact congrArg _ IH.1
        · intro j hj
          cases j with
          | zero =>
            simp [houts, ohlc_retryable]
          | succ j' =>
            simp only [List.length_cons, Nat.succ_lt_succ_iff] at hj
            have h := IH.2.1 j' hj
            have he : attempt + (j' + 1) = attempt + 1 + j' := by omega
            rw [he]
            exact h
        · simp only [List.length_cons]
          have := IH.2.2
          omega
    | status429 =>
      by_cases hn : n = 0
      · simp [cg_ohlc_aux, houts, hn]
      · have IH := ih (attempt + 1)
        simp only [cg_ohlc_aux, houts, if_neg hn]
        refine ⟨?_, ?_, ?_⟩
        · simp only [List.length_cons]
          rw [range_map_shift]
          exact congrArg _ IH.1
        · intro j hj
          cases j with
          | zero =>
            simp [houts, ohlc_retryable]
          | succ j' =>
            simp only [List.length_cons, Nat.succ_lt_succ_iff] at hj
            have h := IH.2.1 j' hj
            have he : attempt + (j' + 1) = attempt + 1 + j' := by omega
            rw [he]
            exact h
        · simp only [List.length_cons]
          have := IH.2.2
          omega
    | httpStatusError code msg =>
      by_cases hc : code = 429 ∧ n ≠ 0
      · have IH := ih (attempt + 1)
        simp only [cg_ohlc_aux, houts, if_pos hc]
        refine ⟨?_, ?_, ?_⟩
        · simp only [List.length_cons]
          rw [range_map_shift]
          exact congrArg _ IH.1
        · intro j hj
          cases j with
          | zero =>
            simp [houts, ohlc_retryable, hc.1]
          | succ j' =>
            simp only [List.length_cons, Nat.succ_lt_succ_iff] at hj
            have h := IH.2.1 j' hj
            have he : attempt + (j' + 1) = attempt + 1 + j' := by omega
            rw [he]
            exact h
        · simp only [List.length_cons]
          have := IH.2.2
          omega
      · simp [cg_ohlc_aux, houts, hc]

/-- The OHLC fallback attempt script for the counterexample: a plain
(non-HTTPStatusError) exception on the first attempt, then success. -/
def ohlc_outs0 : Nat → CGOhlcOutcome := fun n =>
  if n = 0 then .exc "timeout"
  else .ok [⟨0, 1, 1, 1, 1, 0⟩, ⟨1, 1, 1, 1, 1, 0⟩]

/-- Counterexample to claim C3 as stated: in the secondary OHLC fetch, a
plain exception (e.g. a timeout) on the first attempt does NOT return an
error immediately — the loop sleeps 2 seconds and retries, and here the
second attempt succeeds. -/
theorem c3_ohlc_retry_counterexample :
    (cg_ohlc_aux ohlc_outs0 3 0).2 = [2] ∧
    (cg_ohlc_aux ohlc_outs0 3 0).1.isErr = false := by
  constructor <;> rfl

/-- Claim C3 (amended): the secondary price fetch retries (with
exponential backoff, base 2 s, doubling, staying within the attempt
bound) only on HTTP 429, and any other outcome ends the loop at once —
success returns the data, a plain exception or a non-429
`HTTPStatusError` returns that error immediately with no sleep; the
secondary OHLC fetch retries with the same backoff on HTTP 429 and also
on any exception that is not an `HTTPStatusError`, while a non-429
`HTTPStatusError` returns an error immediately. The first three
conjuncts of each half constrain the sleep trace; the rest characterize
the returned result of every branch of one loop step. -/
theorem c3_secondary_backoff (pouts : Nat → CGPriceOutcome)
    (oouts : Nat → CGOhlcOutcome) (fuel attempt : Nat) :
    ((cg_price_aux pouts fuel attempt).2 =
      ((List.range (cg_price_aux pouts fuel attempt).2.length).map
        fun j => 2 ^ (attempt + j) * 2)) ∧
    (∀ j < (cg_price_aux pouts fuel attempt).2.length,
      price_retryable (pouts (attempt + j)) = true) ∧
    ((cg_price_aux pouts fuel attempt).2.length ≤ fuel - 1) ∧
    (∀ s c, pouts attempt = .ok s c →
      cg_price_aux pouts (fuel + 1) attempt = (.ok s c "coingecko", [])) ∧
    (∀ msg, pouts attempt = .exc msg →
      cg_price_aux pouts (fuel + 1) attempt = (.err msg, [])) ∧
    (∀ code msg, pouts attempt = .httpStatusError code msg → code ≠ 429 →
      cg_price_aux pouts (fuel + 1) attempt =
        (.err ("HTTP " ++ toString code ++ ": " ++ msg), [])) ∧
    (pouts attempt = .status429 → fuel ≠ 0 →
      cg_price_aux pouts (fuel + 1) attempt =
        ((cg_price_aux pouts fuel (attempt + 1)).1,
          2 ^ attempt * 2 :: (cg_price_aux pouts fuel (attempt + 1)).2)) ∧
    (pouts attempt = .status429 → fuel = 0 →
      cg_price_aux pouts (fuel + 1) attempt =
        (.err "Rate limit exceeded after retries", [])) ∧
    (∀ msg, pouts attempt = .httpStatusError 429 msg → fuel ≠ 0 →
      cg_price_aux pouts (fuel + 1) attempt =
        ((cg_price_aux pouts fuel (attempt + 1)).1,
          2 ^ attempt * 2 :: (cg_price_aux pouts fuel (attempt + 1)).2)) ∧
    ((cg_ohlc_aux oouts fuel attempt).2 =
      ((List.range (cg_ohlc_aux oouts fuel attempt).2.length).map
        fun j => 2 ^ (attempt + j) * 2)) ∧
    (∀ j < (cg_ohlc_aux oouts fuel attempt).2.length,
      ohlc_retryable (oouts (attempt + j)) = true) ∧
    ((cg_ohlc_aux oouts fuel attempt).2.length ≤ fuel - 1) ∧
    (∀ candles, oouts attempt = .ok candles → 2 ≤ candles.length →
      cg_ohlc_aux oouts (fuel + 1) attempt = (.block candles "coingecko", [])) ∧
    (∀ candles, oouts attempt = .ok candles → candles.length < 2 →
      cg_ohlc_aux oouts (fuel + 1) attempt = (.empty, [])) ∧
    (∀ code msg, oouts attempt = .httpStatusError code msg → code ≠ 429 →
      cg_ohlc_aux oouts (fuel + 1) attempt =
        (.err ("HTTP " ++ toString code ++ ": " ++ msg), [])) ∧
    (oouts attempt = .status429 → fuel ≠ 0 →
      cg_ohlc_aux oouts (fuel + 1) attempt =
        ((cg_ohlc_aux oouts fuel (attempt + 1)).1,
          2 ^ attempt * 2 :: (cg_ohlc_aux oouts fuel (attempt + 1)).2)) ∧
    (oouts attempt = .status429 → fuel = 0 →
      cg_ohlc_aux oouts (fuel + 1) attempt =
        (.err "Rate limit exceeded after retries", [])) ∧
    (∀ msg, oouts attempt = .exc msg → fuel ≠ 0 →
      cg_ohlc_aux oouts (fuel + 1) attempt =
        ((cg_ohlc_aux oouts fuel (attempt + 1)).1,
          2 ^ attempt * 2 :: (cg_ohlc_aux oouts fuel (attempt + 1)).2)) ∧
    (∀ msg, oouts attempt = .exc msg → fuel = 0 →
      cg_ohlc_aux oouts (fuel + 1) attempt = (.err msg, [])) := by
  have hp := cg_price_aux_spec pouts fuel attempt
  have ho := cg_ohlc_aux_spec oouts fuel attempt
  refine ⟨hp.1, hp.2.1, hp.2.2, ?_, ?_, ?_, ?_, ?_, ?_,
    ho.1, ho.2.1, ho.2.2, ?_, ?_, ?_, ?_, ?_, ?_, ?_⟩
  · intro s c h
    simp [cg_price_aux, h]
  · intro msg h
    simp [cg_price_aux, h]
  · intro code msg h hc
    simp [cg_price_aux, h, hc]
  · intro h hf
    simp [cg_price_aux, h, hf]
  · intro h hf
    simp [cg_price_aux, h, hf]
  · intro msg h hf
    simp [cg_price_aux, h, hf]
  · intro candles h hlen
    have hn : ¬ candles.length < 2 := by omega
    simp [cg_ohlc_aux, h, hn]
  · intro candles h hlen
    simp [cg_ohlc_aux, h, hlen]
  · intro code msg h hc
    simp [cg_ohlc_aux, h, hc]
  · intro h hf
    simp [cg_ohlc_aux, h, hf]
  · intro h hf
    simp [cg_ohlc_aux, h, hf]
  · intro msg h hf
    simp [cg_ohlc_aux, h, hf]
  · intro msg h hf
    simp [cg_ohlc_aux, h, hf]

/-- Witness for C3 (amended), three program facts: a plain exception
makes the price loop return that error at once with no sleep; a non-429
`HTTPStatusError` makes the OHLC loop return its error at once; a plain
exception with attempts left makes the OHLC loop sleep `2 ** 0 * 2`
seconds and continue with the next attempt. -/
theorem c3_secondary_backoff_witness :
    cg_price_aux (fun _ => CGPriceOutcome.exc "boom") 3 0 =
      (.err "boom", []) ∧
    cg_ohlc_aux (fun _ => CGOhlcOutcome.httpStatusError 500 "Server Error") 3 0 =
      (.err "HTTP 500: Server Error", []) ∧
    cg_ohlc_aux ohlc_outs0 3 0 =
      ((cg_ohlc_aux ohlc_outs0 2 1).1,
        2 ^ 0 * 2 :: (cg_ohlc_aux ohlc_outs0 2 1).2) := by
  obtain ⟨_, _, _, _, p5, _, _, _, _, _, _, _, _, _, o6, _, _, _, _⟩ :=
    c3_secondary_backoff (fun _ => CGPriceOutcome.exc "boom")
      (fun _ => CGOhlcOutcome.httpStatusError 500 "Server Error") 2 0
  obtain ⟨_, _, _, _, _, _, _, _, _, _, _, _, _, _, _, _, _, o8, _⟩ :=
    c3_secondary_backoff (fun _ => CGPriceOutcome.exc "boom") ohlc_outs0 2 0
  exact ⟨p5 "boom" rfl, o6 500 "Server Error" rfl (by decide),
    o8 "timeout" rfl (by decide)⟩

/-! ## JSON values and `json.dumps(..., separators=(',', ':'))`

Python dicts keep insertion order, so an object is a list of key/value
pairs. Numbers are exact rationals; `renderNum` idealizes Python's float
`repr` (exact decimal expansion when finite); no theorem depends on the
digits it produces. -/

/-- A JSON value. -/
inductive Json where
  | null
  | bool (b : Bool)
  | num (q : ℚ)
  | str (s : String)
  | arr (items : List Json)
  | obj (fields : List (String × Json))

/-- Decimal rendering of a rational whose denominator divides a power of
ten; fraction notation otherwise (never hit by floats, which are dyadic). -/
def renderNum (q : ℚ) : String :=
  match (List.range 64).find? (fun k => 10 ^ k % q.den = 0) with
  | some 0 => toString q.num
  | some k =>
    let n : Int := q.num * ((10 ^ k : ℕ) / q.den : ℕ)
    let sign := if n < 0 then "-" else ""
    let ds := (toString n.natAbs).data
    let ds := if ds.length < k + 1 then List.replicate (k + 1 - ds.length) '0' ++ ds else ds
    let m := ds.length - k
    sign ++ String.mk (ds.take m) ++ "." ++ String.mk (ds.drop m)
  | none => toString q.num ++ " div " ++ toString q.den

/-- JSON string escaping (the cases relevant to this data). -/
def escChar (c : Char) : String :=
  if c = '"' then "\\\""
  else if c = '\\' then "\\\\"
  else if c = '\n' then "\\n"
  else if c = '\r' then "\\r"
  else if c = '\t' then "\\t"
  else String.singleton c

/-- Escape a JSON string body. -/
def escape (s : String) : String := String.join (s.data.map escChar)

mutual

/-- Source: `json.dumps` with separators `(',', ':')` (minified). -/
def Json.dumps : Json → String
  | .null => "null"
  | .bool b => if b then "true" else "false"
  | .num q => renderNum q
  | .str s => "\"" ++ escape s ++ "\""
  | .arr items => "[" ++ Json.dumpsItems items ++ "]"
  | .obj fields => "\x7b" ++ Json.dumpsFields fields ++ "\x7d"

/-- Comma-joined array elements. -/
def Json.dumpsItems : List Json → String
  | [] => ""
  | [x] => Json.dumps x
  | x :: y :: xs => Json.dumps x ++ "," ++ Json.dumpsItems (y :: xs)

/-- Comma-joined object entries. -/
def Json.dumpsFields : List (String × Json) → String
  | [] => ""
  | [(k, v)] => "\"" ++ escape k ++ "\":" ++ Json.dumps v
  | (k, v) :: f :: fs =>
    "\"" ++ escape k ++ "\":" ++ Json.dumps v ++ "," ++ Json.dumpsFields (f :: fs)

end

/-- Field lookup on a JSON object. -/
def Json.field (j : Json) (key : String) : Option Json :=
  match j with
  | .obj fields => fields.lookup key
  | _ => none

/-- An optional number rendered as a JSON number or `null`. -/
def optNum : Option ℚ → Json
  | some q => .num q
  | none => .null

/-- An optional boolean rendered as a JSON boolean or `null`. -/
def optBool : Option Bool → Json
  | some b => .bool b
  | none => .null

/-! ## News headlines (src/backend/src/context_builder.py,
`_fetch_macro_headlines`, lines 378-488) -/

/-- One item of the shared news stream (fields read by the filter). -/
structure NewsItem where
  title : String
  body : String
  tags : List String
  categories : List String
  url : String
  published_on : Option Int
  source : String
deriving DecidableEq

/-- Outcome of the news fetch: the parsed `Data` list, or any failure
(HTTP error, exception, malformed body). -/
inductive NewsOutcome where
  | ok (items : List NewsItem)
  | failure (msg : String)

/-- The `COINGECKO_IDS` mapping table. -/
def COINGECKO_IDS : List (String × String) :=
  [("BTC", "bitcoin"), ("ETH", "ethereum"), ("SOL", "solana"),
   ("AVAX", "avalanche-2"), ("ARB", "arbitrum"), ("DOGE", "dogecoin"),
   ("XRP", "ripple")]

/-- The `symbol_names` mapping of `_fetch_macro_headlines`. -/
def symbol_names : List (String × List String) :=
  [("BTC", ["bitcoin", "BTC", "Bitcoin"]),
   ("ETH", ["ethereum", "ETH", "Ethereum"]),
   ("SOL", ["solana", "SOL", "Solana"]),
   ("AVAX", ["avalanche", "AVAX", "Avalanche"]),
   ("ARB", ["arbitrum", "ARB", "Arbitrum"]),
   ("DOGE", ["dogecoin", "DOGE", "Dogecoin", "doge"]),
   ("MATIC", ["polygon", "MATIC", "Polygon", "matic"]),
   ("LINK", ["chainlink", "LINK", "Chainlink"]),
   ("ADA", ["cardano", "ADA", "Cardano"]),
   ("DOT", ["polkadot", "DOT", "Polkadot"]),
   ("UNI", ["uniswap", "UNI", "Uniswap"]),
   ("ATOM", ["cosmos", "ATOM", "Cosmos"]),
   ("XRP", ["ripple", "XRP", "Ripple", "xrp"]),
   ("BNB", ["binance", "BNB", "Binance Coin", "binance coin"]),
   ("LTC", ["litecoin", "LTC", "Litecoin"]),
   ("BCH", ["bitcoin cash", "BCH", "Bitcoin Cash"])]

/-- ASCII alphabetic test. -/
def isAsciiAlpha (c : Char) : Bool :=
  ('a' ≤ c ∧ c ≤ 'z') ∨ ('A' ≤ c ∧ c ≤ 'Z')

/-- Helper for `pyTitle`: tracks whether the previous char was alphabetic. -/
def pyTitleAux : Bool → List Char → List Char
  | _, [] => []
  | prev, c :: cs =>
    (if isAsciiAlpha c then (if prev then pyLowerChar c else pyUpperChar c) else c) ::
      pyTitleAux (isAsciiAlpha c) cs

/-- Python `str.title` (ASCII fragment). -/
def pyTitle (s : String) : String := String.mk (pyTitleAux false s.data)

/-- Leading-match test on character lists. -/
def charsLead : List Char → List Char → Bool
  | [], _ => true
  | _ :: _, [] => false
  | a :: as, b :: bs => a = b && charsLead as bs

/-- Python `needle in hay` on strings (substring containment). -/
def strContains (hay needle : String) : Bool :=
  hay.data.tails.any fun t => charsLead needle.data t

/-- Source: `symbol_variations` of `_fetch_macro_headlines`. -/
def symbol_variations (symbol : String) : List String :=
  [pyUpper symbol, pyLower symbol, pyUpper symbol ++ "USD", pyUpper symbol ++ "/USD"]

/-- The search-term set built by `_fetch_macro_headlines`. -/
def search_terms (symbol : String) : List String :=
  let su := pyUpper symbol
  let base :=
    match symbol_names.lookup su with
    | some names => names
    | none =>
      let ts := [su, pyLower symbol]
      match COINGECKO_IDS.lookup su with
      | some cg_id =>
        let coin_name := (cg_id.replace "-2" "").replace "-" " "
        ts ++ [coin_name, pyTitle coin_name, pyUpper coin_name]
      | none => ts
  base ++ symbol_variations symbol

/-- Python `' '.join(...)`. -/
def joinSpace (l : List String) : String := String.intercalate " " l

/-- The searchable text of an item:
`f"{title} {body} {tags} {categories}"`, lowercased per the source. -/
def news_text (item : NewsItem) : String :=
  pyLower item.title ++ " " ++ pyLower item.body ++ " " ++
    pyLower (joinSpace item.tags) ++ " " ++ pyLower (joinSpace item.categories)

/-- Whether any search term appears in the item's searchable text. -/
def matches_symbol (terms : List String) (item : NewsItem) : Bool :=
  terms.any fun t => strContains (news_text item) (pyLower t)

/-- The `general_terms` list of the backfill step. -/
def general_terms : List String :=
  ["BTC", "ETH", "SOL", "AVAX", "ARB", "DOGE",
   "bitcoin", "ethereum", "solana", "avalanche", "arbitrum", "dogecoin"]

/-- Whether a backfill candidate avoids mentioning any other tracked coin. -/
def general_ok (symbol_upper : String) (item : NewsItem) : Bool :=
  let text := pyLower item.title ++ " " ++ pyLower item.body
  !(general_terms.any fun t => pyUpper t ≠ symbol_upper && strContains text (pyLower t))

/-- The backfill loop: walk the full stream, skip already-used URLs, add
general items until `limit` items are collected. -/
def backfill (symbol_upper : String) (limit : Nat) :
    List NewsItem → List NewsItem → List String → List NewsItem
  | [], acc, _ => acc
  | item :: rest, acc, urls =>
    if limit ≤ acc.length then acc
    else if urls.contains item.url then backfill symbol_upper limit rest acc urls
    else if general_ok symbol_upper item then
      backfill symbol_upper limit rest (acc ++ [item]) (urls ++ [item.url])
    else backfill symbol_upper limit rest acc urls

/-- The JSON headline record built from an item. -/
def headlineJson (item : NewsItem) : Json :=
  .obj [("title", .str item.title), ("url", .str item.url),
        ("published_at", match item.published_on with
          | some t => .num (t : ℚ)
          | none => .null),
        ("source", .str item.source)]

/-- Source: `_fetch_macro_headlines`: on any failure return `{'headlines': []}`;
otherwise filter by symbol terms, backfill with general items when short,
and take at most `limit`. -/
def _fetch_macro_headlines (symbol : String) (limit : Nat) (outcome : NewsOutcome) : Json :=
  match outcome with
  | .failure _ => .obj [("headlines", .arr [])]
  | .ok all_items =>
    let terms := search_terms symbol
    let filtered := all_items.filter (matches_symbol terms)
    let final :=
      if filtered.length < limit then
        backfill (pyUpper symbol) limit all_items filtered (filtered.map NewsItem.url)
      else filtered
    .obj [("headlines", .arr ((final.take limit).map headlineJson))]

/-! ## build_market_context (src/backend/src/context_builder.py,
lines 491-519) -/

/-- The JSON form of a price block. -/
def PriceBlock.toJson : PriceBlock → Json
  | .ok s c source =>
    .obj [("spot", optNum s), ("usd_24h_change", optNum c), ("source", .str source)]
  | .err msg => .obj [("error", .str msg)]

/-- The full indicator-block JSON computed from a candle list (identical
in the Binance and CoinGecko branches of `_fetch_ohlc_data`). -/
def indicatorJson (candles : List Candle) (source : String) : Json :=
  let closes := candles.map Candle.close
  let highs := candles.map Candle.high
  let lows := candles.map Candle.low
  let cp := current_price closes
  let rl := recent_low lows
  let rh := recent_high highs
  .obj [
    ("current_price", .num (round2 cp)),
    ("price_change_24h_pct", .num (round2 (price_change_24h closes))),
    ("moving_averages", .obj [
      ("ma_7", .num (round2 (ma_7 closes))),
      ("ma_20", optNum (out_ma_20 closes))]),
    ("rsi", optNum (out_rsi closes)),
    ("macd_signal", optNum (out_macd_signal closes)),
    ("support_level", .num (round2 rl)),
    ("resistance_level", .num (round2 rh)),
    ("price_position", .obj [
      ("distance_from_support_pct",
        if 0 < rl then .num (round2 ((cp - rl) / rl * 100)) else .null),
      ("distance_from_resistance_pct",
        if 0 < cp then .num (round2 ((rh - cp) / cp * 100)) else .null)]),
    ("trend", .str (trend closes).label),
    ("price_above_ma7", .bool (decide (ma_7 closes < cp))),
    ("price_above_ma20", optBool (out_price_above_ma20 closes)),
    ("source", .str source)
  ]

/-- The JSON form of an indicator result. -/
def IndicatorResult.toJson : IndicatorResult → Json
  | .block candles source => indicatorJson candles source
  | .empty => .obj []
  | .err msg => .obj [("error", .str msg)]

/-- All upstream responses observed by one `build_market_context` call. -/
structure Upstream where
  priceMirrors : List MirrorOutcome
  priceCG : Nat → CGPriceOutcome
  ohlcBinance : Option (List Candle)
  ohlcCG : Nat → CGOhlcOutcome
  news : NewsOutcome

/-- The context dictionary assembled by `build_market_context` (the
`days=7` window and `limit=5` shape the upstream request and are fixed
here; `retries` defaults to 3 in the source). -/
def contextJson (symbol : String) (timestamp : String) (u : Upstream) : Json :=
  .obj [
    ("symbol", .str (pyUpper symbol)),
    ("generated_at", .str timestamp),
    ("price", ((_fetch_price u.priceMirrors u.priceCG 3).1).toJson),
    ("technical_indicators", ((_fetch_ohlc_data u.ohlcBinance u.ohlcCG 3).1).toJson),
    ("macro", _fetch_macro_headlines symbol 5 u.news),
    ("sentiment", .obj [("funding_rate", .null),
      ("funding_rate_source", .str "Not configured")]),
    ("on_chain", .obj [("exchange_inflows", .null), ("whale_activity", .null)]),
    ("notes", .str "Context includes technical indicators (RSI, MACD, MA, Support/Resistance) and fundamental data (news, trends)")
  ]

/-- Source: `build_market_context`: the minified serialization of the context. -/
def build_market_context (symbol : String) (timestamp : String) (u : Upstream) : String :=
  Json.dumps (contextJson symbol timestamp u)

/-- Replace the value of the `generated_at` field of a JSON object. -/
def setGeneratedAt (t : String) (j : Json) : Json :=
  match j with
  | .obj fields =>
    .obj (fields.map fun kv => if kv.1 = "generated_at" then (kv.1, Json.str t) else kv)
  | other => other

theorem setGeneratedAt_contextJson (t0 symbol t : String) (u : Upstream) :
    setGeneratedAt t0 (contextJson symbol t u) = contextJson symbol t0 u := rfl

/-- Claim C7: `build_market_context` always returns the serialization of
a JSON value, whatever the upstream outcomes; a failed price fetch embeds
an `error` field in the price block, a failed indicator fetch embeds an
`error` field in the indicator block, and a failed news fetch leaves an
empty headline list — no upstream failure escapes the build. -/
theorem build_market_context_total (symbol timestamp : String) (u : Upstream) :
    (∃ j : Json, build_market_context symbol timestamp u = Json.dumps j) ∧
    (∀ msg, (_fetch_price u.priceMirrors u.priceCG 3).1 = .err msg →
      (contextJson symbol timestamp u).field "price" =
        some (.obj [("error", .str msg)])) ∧
    (∀ msg, (_fetch_ohlc_data u.ohlcBinance u.ohlcCG 3).1 = .err msg →
      (contextJson symbol timestamp u).field "technical_indicators" =
        some (.obj [("error", .str msg)])) ∧
    (∀ msg, u.news = .failure msg →
      (contextJson symbol timestamp u).field "macro" =
        some (.obj [("headlines", .arr [])])) := by
  refine ⟨⟨contextJson symbol timestamp u, rfl⟩, ?_, ?_, ?_⟩
  · intro msg h
    have hf : (contextJson symbol timestamp u).field "price" =
        some (PriceBlock.toJson ((_fetch_price u.priceMirrors u.priceCG 3).1)) := rfl
    rw [hf, h]
    rfl
  · intro msg h
    have hf : (contextJson symbol timestamp u).field "technical_indicators" =
        some (IndicatorResult.toJson ((_fetch_ohlc_data u.ohlcBinance u.ohlcCG 3).1)) := rfl
    rw [hf, h]
    rfl
  · intro msg h
    have hf : (contextJson symbol timestamp u).field "macro" =
        some (_fetch_macro_headlines symbol 5 u.news) := rfl
    rw [hf, h]
    rfl

/-- An upstream world in which every source fails: all six Binance price
mirrors fail, CoinGecko price raises, Binance klines return nothing,
CoinGecko OHLC answers HTTP 500, and the news fetch raises. -/
def uFail : Upstream :=
  { priceMirrors := [.exc "down", .badRequest, .otherStatus 500,
      .exc "down", .exc "down", .exc "down"]
  , priceCG := fun _ => .exc "price down"
  , ohlcBinance := none
  , ohlcCG := fun _ => .httpStatusError 500 "Server Error"
  , news := .failure "news down" }

/-- Witness for C7: with every upstream failing, the context still
serializes, the price and indicator blocks carry `error` fields, and the
headline list is empty. -/
theorem build_market_context_total_witness :
    (contextJson "BTC" "2026-01-01T00:00:00+00:00" uFail).field "price" =
      some (.obj [("error", .str "price down")]) ∧
    (contextJson "BTC" "2026-01-01T00:00:00+00:00" uFail).field "technical_indicators" =
      some (.obj [("error", .str "HTTP 500: Server Error")]) ∧
    (contextJson "BTC" "2026-01-01T00:00:00+00:00" uFail).field "macro" =
      some (.obj [("headlines", .arr [])]) :=
  ⟨(build_market_context_total "BTC" "2026-01-01T00:00:00+00:00" uFail).2.1
      "price down" rfl,
   (build_market_context_total "BTC" "2026-01-01T00:00:00+00:00" uFail).2.2.1
      "HTTP 500: Server Error" rfl,
   (build_market_context_total "BTC" "2026-01-01T00:00:00+00:00" uFail).2.2.2
      "news down" rfl⟩

/-- Claim C9: the build is a deterministic function of the upstream
responses and the capture time — two contexts over identical upstream
data differ only in the `generated_at` value, so after normalizing that
one field the serialized strings are byte-identical. -/
theorem build_market_context_deterministic (symbol t t' t0 : String) (u : Upstream) :
    setGeneratedAt t0 (contextJson symbol t u) = contextJson symbol t0 u ∧
    Json.dumps (setGeneratedAt t0 (contextJson symbol t u)) =
      Json.dumps (setGeneratedAt t0 (contextJson symbol t' u)) := by
  refine ⟨setGeneratedAt_contextJson t0 symbol t u, ?_⟩
  rw [setGeneratedAt_contextJson, setGeneratedAt_contextJson]

/-! ## tx_sender.submit_prediction_update (src/backend/src/tx_sender.py,
lines 70-138)

`json.loads(context_json)` is modelled by its result: `none` when the
string is not valid JSON, `some j` when it parses to the value `j`; the
minified re-serialization is then `Json.dumps j`. The ledger write and
the receipt wait are modelled by their outcomes. -/

/-- The valid timeframes of `submit_prediction_update`. -/
def valid_timeframes : List String := ["1h", "4h", "12h", "24h", "7d", "30d"]

/-- A ledger write issued by the sender. -/
inductive TxWrite where
  | write (function_name : String) (args : List String)
deriving DecidableEq

/-- Source: `submit_prediction_update`: validation (JSON, symbol, timeframe) runs
before the write; a validation failure raises `ValueError` with no write
issued. On success the single write carries the cleaned symbol, the
minified JSON, and the cleaned timeframe; a receipt-wait failure is
downgraded to success with an empty receipt id. The first component lists
the ledger writes issued on that path. -/
def submit_prediction_update (parsed_context : Option Json) (symbol timeframe : String)
    (write_result : Except String String) (receipt_id : Option String) :
    List TxWrite × Except String (String × String) :=
  match parsed_context with
  | none => ([], .error "Invalid JSON in context_json")
  | some j =>
    let normalized_json := Json.dumps j
    let symbol_clean := pyStrip (pyUpper symbol)
    if symbol_clean = "" then ([], .error "symbol cannot be empty")
    else
      let timeframe_clean := pyStrip (pyLower timeframe)
      if valid_timeframes.contains timeframe_clean = false then
        ([], .error "invalid timeframe")
      else
        match write_result with
        | .error e => ([], .error e)
        | .ok tx_hash =>
          ([TxWrite.write "request_update" [symbol_clean, normalized_json, timeframe_clean]],
            .ok (tx_hash, receipt_id.getD ""))

/-- Claim C10: invalid JSON, an empty cleaned symbol, or an unknown
cleaned timeframe raise `ValueError` before any ledger write; otherwise
the single write is the uppercased-and-stripped symbol, the minified
re-serialization of the parsed context, and the lowercased-and-stripped
timeframe. -/
theorem submit_prediction_update_spec (parsed : Option Json) (symbol timeframe : String)
    (wr : Except String String) (rid : Option String) :
    (parsed = none →
      submit_prediction_update parsed symbol timeframe wr rid =
        ([], .error "Invalid JSON in context_json")) ∧
    (pyStrip (pyUpper symbol) = "" →
      (submit_prediction_update parsed symbol timeframe wr rid).1 = [] ∧
      ∃ e, (submit_prediction_update parsed symbol timeframe wr rid).2 = .error e) ∧
    (valid_timeframes.contains (pyStrip (pyLower timeframe)) = false →
      (submit_prediction_update parsed symbol timeframe wr rid).1 = [] ∧
      ∃ e, (submit_prediction_update parsed symbol timeframe wr rid).2 = .error e) ∧
    (∀ j tx, parsed = some j → pyStrip (pyUpper symbol) ≠ "" →
      valid_timeframes.contains (pyStrip (pyLower timeframe)) = true → wr = .ok tx →
      (submit_prediction_update parsed symbol timeframe wr rid).1 =
        [TxWrite.write "request_update"
          [pyStrip (pyUpper symbol), Json.dumps j, pyStrip (pyLower timeframe)]] ∧
      (submit_prediction_update parsed symbol timeframe wr rid).2 =
        .ok (tx, rid.getD "")) := by
  refine ⟨?_, ?_, ?_, ?_⟩
  · rintro rfl
    rfl
  · intro hs
    cases parsed with
    | none => exact ⟨rfl, ⟨"Invalid JSON in context_json", rfl⟩⟩
    | some j =>
      constructor
      · simp [submit_prediction_update, hs]
      · exact ⟨"symbol cannot be empty", by simp [submit_prediction_update, hs]⟩
  · intro ht
    have ht' : pyStrip (pyLower timeframe) ∉ valid_timeframes := by simpa using ht
    cases parsed with
    | none => exact ⟨rfl, ⟨"Invalid JSON in context_json", rfl⟩⟩
    | some j =>
      by_cases hs : pyStrip (pyUpper symbol) = ""
      · constructor
        · simp [submit_prediction_update, hs]
        · exact ⟨"symbol cannot be empty", by simp [submit_prediction_update, hs]⟩
      · constructor
        · simp [submit_prediction_update, hs, ht']
        · exact ⟨"invalid timeframe", by simp [submit_prediction_update, hs, ht']⟩
  · rintro j tx rfl hs ht rfl
    have ht' : pyStrip (pyLower timeframe) ∈ valid_timeframes := by simpa using ht
    constructor
    · simp [submit_prediction_update, hs, ht']
    · simp [submit_prediction_update, hs, ht']

/-- Witness for C10: a concrete successful submission with symbol
`" btc "` and timeframe `" 24H "` writes `request_update` with `BTC`,
the minified payload, and `24h`. -/
theorem submit_prediction_update_spec_witness :
    (submit_prediction_update (some (.obj [("a", .num 1)])) " btc " " 24H "
      (.ok "0xabc") (some "r1")).1 =
      [TxWrite.write "request_update"
        [pyStrip (pyUpper " btc "), Json.dumps (.obj [("a", .num 1)]),
         pyStrip (pyLower " 24H ")]] ∧
    (submit_prediction_update (some (.obj [("a", .num 1)])) " btc " " 24H "
      (.ok "0xabc") (some "r1")).2 = .ok ("0xabc", "r1") :=
  (submit_prediction_update_spec (some (.obj [("a", .num 1)])) " btc " " 24H "
    (.ok "0xabc") (some "r1")).2.2.2 (.obj [("a", .num 1)]) "0xabc" rfl
    (by decide) (by decide) rfl

/-! ## scheduler.run_once (src/backend/src/scheduler.py, lines 218-374)

The lock protocol: `run_lock.acquire(blocking=False)` at entry, the whole
body inside `try`, `run_lock.release()` in `finally`. The body's ledger
activity is modelled as a trace of operations; outcomes of the health
check, the symbol read, and the per-symbol loop come from the
environment. `get_cached_client` and `check_contract_health` are imported
by the scheduler but their definitions are not part of the repository
snapshot; per the spec they amount to client setup and one lightweight
ledger read, which is how they are modelled here. -/

/-- A ledger operation of a scheduler run. -/
inductive LedgerOp where
  | read (function_name : String)
  | write (function_name : String)
deriving DecidableEq

/-- Environment of one run: outcomes of the health check and the symbol
read, the whitelist value, the ledger operations of the per-symbol loop
plus reconciliation, and whether an exception escapes the body. -/
structure RunEnv where
  healthOk : Bool
  symbolsResult : Except String (List String)
  envValue : String
  loopOps : List LedgerOp
  loopRaises : Option String

/-- How one `run_once` invocation ended. -/
inductive RunOutcome where
  | skippedLockHeld
  | abortedHealthCheck
  | abortedSymbolsError
  | abortedNoSymbols
  | abortedEmptyWhitelist
  | raised (msg : String)
  | completed
deriving DecidableEq

/-- The body of `run_once` (the `try` block): health check, symbol
listing, whitelist resolution, then the per-symbol loop; each early
`return` is an abort outcome, an uncaught exception is `raised`. -/
def run_body (env : RunEnv) : List LedgerOp × RunOutcome :=
  let ops0 := [LedgerOp.read "health_check"]
  if env.healthOk = false then (ops0, .abortedHealthCheck)
  else
    let ops1 := ops0 ++ [LedgerOp.read "list_symbols"]
    match env.symbolsResult with
    | .error _ => (ops1, .abortedSymbolsError)
    | .ok contract_symbols =>
      if contract_symbols = [] then (ops1, .abortedNoSymbols)
      else if symbols_to_update contract_symbols env.envValue = [] then
        (ops1, .abortedEmptyWhitelist)
      else
        match env.loopRaises with
        | some msg => (ops1 ++ env.loopOps, .raised msg)
        | none => (ops1 ++ env.loopOps, .completed)

/-- The scheduler's shared state: the run lock and the cumulative ledger
trace. -/
structure SchedState where
  lockHeld : Bool
  ledgerTrace : List LedgerOp
deriving DecidableEq

/-- Source: `run_once`: non-blocking acquire — if the lock is held the run is
skipped with no ledger activity; otherwise the body runs under the lock
and `finally` releases it on every path, exceptions included. -/
def run_once (env : RunEnv) (s : SchedState) : SchedState × RunOutcome :=
  if s.lockHeld then (s, .skippedLockHeld)
  else
    let b := run_body env
    ({ lockHeld := false, ledgerTrace := s.ledgerTrace ++ b.1 }, b.2)

/-- Claim C2: a `run_once` while the lock is held returns immediately
with the state (including the ledger trace) unchanged; a `run_once` that
acquired the lock leaves it released on every outcome of the body —
completion, each early abort, or an exception. -/
theorem run_once_lock_spec (env : RunEnv) (s : SchedState) :
    (s.lockHeld = true →
      run_once env s = (s, .skippedLockHeld) ∧
      (run_once env s).1.ledgerTrace = s.ledgerTrace) ∧
    (s.lockHeld = false → (run_once env s).1.lockHeld = false) := by
  constructor
  · intro h
    simp [run_once, h]
  · intro h
    simp [run_once, h]

/-- Witness for C2: with the lock held nothing happens; with it free, a
run whose body raises still ends with the lock released. -/
theorem run_once_lock_spec_witness :
    run_once ⟨true, .ok ["BTC"], "", [], some "boom"⟩ ⟨true, []⟩ =
      (⟨true, []⟩, .skippedLockHeld) ∧
    (run_once ⟨true, .ok ["BTC"], "", [], some "boom"⟩ ⟨false, []⟩).1.lockHeld = false :=
  ⟨(run_once_lock_spec ⟨true, .ok ["BTC"], "", [], some "boom"⟩ ⟨true, []⟩).1 rfl |>.1,
   (run_once_lock_spec ⟨true, .ok ["BTC"], "", [], some "boom"⟩ ⟨false, []⟩).2 rfl⟩

/-! ## accuracy_recorder.record_expired_predictions
(src/backend/src/accuracy_recorder.py, lines 76-158; the copy in
scheduler.py, lines 142-215, follows the same per-timeframe structure)

`fetch_current_price` is modelled as a per-symbol outcome from the
environment (`None` on failure, as in the source); ledger reads, price
fetches, and `record_actual_price` writes are recorded as a trace. -/

/-- The timeframes iterated by the recorder. -/
def TIMEFRAMES : List String := ["1h", "4h", "12h", "24h", "7d", "30d"]

/-- One operation of a reconciliation pass. -/
inductive RecOp where
  | readExpired (symbol timeframe : String)
  | fetchPrice (symbol : String)
  | writeActual (prediction_id : String) (actual_price : String)
deriving DecidableEq

/-- An expired-prediction record as read back from the ledger. -/
structure PredRecord where
  prediction_id : String
  actual_price : String
deriving DecidableEq

/-- Environment of one reconciliation pass: the symbol listing, the
expired-prediction read per slot, the price fetch per symbol, and the
per-prediction write outcome. -/
structure RecEnv where
  symbolsResult : Except String (List String)
  expired : String → String → Except String (List PredRecord)
  price : String → Option ℚ
  writeOk : String → Bool

/-- Render `f"{p:.2f} USD"` over the exact rational model. -/
def format2USD (q : ℚ) : String :=
  let z := rhe (q * 100)
  let sign := if z < 0 then "-" else ""
  let a := z.natAbs
  sign ++ toString (a / 100) ++ "." ++
    (if a % 100 < 10 then "0" else "") ++ toString (a % 100) ++ " USD"

/-- The per-prediction loop of a slot: skip records with no id or an
already-set actual price, otherwise issue the `record_actual_price` write
and count it as recorded or failed (ops in loop order). -/
def process_preds (env : RecEnv) (actual_price_str : String) :
    List PredRecord → List RecOp × Nat × Nat
  | [] => ([], 0, 0)
  | pred :: rest =>
    let tail := process_preds env actual_price_str rest
    if pred.prediction_id = "" then tail
    else if pred.actual_price ≠ "" then tail
    else if env.writeOk pred.prediction_id then
      (RecOp.writeActual pred.prediction_id actual_price_str :: tail.1,
        tail.2.1 + 1, tail.2.2)
    else
      (RecOp.writeActual pred.prediction_id actual_price_str :: tail.1,
        tail.2.1, tail.2.2 + 1)

/-- One (symbol, timeframe) slot of the pass: read the expired list (a
read failure counts one error), skip empty slots, fetch the price fresh
for this slot, skip the whole slot when the fetch fails, else write each
unresolved prediction. -/
def process_slot (env : RecEnv) (symbol timeframe : String) : List RecOp × Nat × Nat :=
  match env.expired symbol timeframe with
  | .error _ => ([RecOp.readExpired symbol timeframe], 0, 1)
  | .ok preds =>
    if preds = [] then ([RecOp.readExpired symbol timeframe], 0, 0)
    else
      match env.price symbol with
      | none => ([RecOp.readExpired symbol timeframe, RecOp.fetchPrice symbol], 0, 0)
      | some p =>
        let w := process_preds env (format2USD p) preds
        ([RecOp.readExpired symbol timeframe, RecOp.fetchPrice symbol] ++ w.1,
          w.2.1, w.2.2)

/-- Source: `record_expired_predictions`: every registered symbol × timeframe is
processed in order; a symbol-listing failure aborts the pass. Returns the
operation trace with the recorded and error counters. -/
def record_expired_predictions (env : RecEnv) : List RecOp × Nat × Nat :=
  match env.symbolsResult with
  | .error _ => ([], 0, 0)
  | .ok symbols =>
    symbols.foldl (fun acc symbol =>
      TIMEFRAMES.foldl (fun acc2 tf =>
        let r := process_slot env symbol tf
        (acc2.1 ++ r.1, acc2.2.1 + r.2.1, acc2.2.2 + r.2.2)) acc)
      ([], 0, 0)

/-- The counterexample environment: one symbol with unresolved expired
predictions in two timeframes, and a working price source. -/
def recEnv0 : RecEnv :=
  { symbolsResult := .ok ["BTC"]
  , expired := fun _ tf =>
      if tf = "1h" then .ok [⟨"p1", ""⟩]
      else if tf = "4h" then .ok [⟨"p2", ""⟩]
      else .ok []
  , price := fun _ => some 100
  , writeOk := fun _ => true }

theorem process_preds_no_fetch (env : RecEnv) (aps : String)
    (preds : List PredRecord) (symbol : String) :
    (process_preds env aps preds).1.count (RecOp.fetchPrice symbol) = 0 := by
  induction preds with
  | nil => rfl
  | cons pred rest ih =>
    by_cases h1 : pred.prediction_id = ""
    · simp [process_preds, h1, ih]
    · by_cases h2 : pred.actual_price ≠ ""
      · simp [process_preds, h1, h2, ih]
      · by_cases h3 : env.writeOk pred.prediction_id
        · simp [process_preds, h1, h2, h3, List.count_cons, ih]
        · simp [process_preds, h1, h2, h3, List.count_cons, ih]

theorem process_preds_ops_are_writes (env : RecEnv) (aps : String)
    (preds : List PredRecord) :
    ∀ op ∈ (process_preds env aps preds).1,
      ∃ pid s, op = RecOp.writeActual pid s := by
  induction preds with
  | nil => intro op hop; simp [process_preds] at hop
  | cons pred rest ih =>
    intro op hop
    rw [process_preds] at hop
    by_cases h1 : pred.prediction_id = ""
    · rw [if_pos h1] at hop
      exact ih op hop
    · rw [if_neg h1] at hop
      by_cases h2 : pred.actual_price ≠ ""
      · rw [if_pos h2] at hop
        exact ih op hop
      · rw [if_neg h2] at hop
        by_cases h3 : env.writeOk pred.prediction_id = true
        · rw [if_pos h3] at hop
          rcases List.mem_cons.mp hop with h | h
          · exact ⟨pred.prediction_id, aps, h⟩
          · exact ih op h
        · rw [if_neg h3] at hop
          rcases List.mem_cons.mp hop with h | h
          · exact ⟨pred.prediction_id, aps, h⟩
          · exact ih op h

/-- Counterexample to claim C6 as stated: in one pass over `recEnv0` the
price of `BTC` is fetched twice — once for the `1h` slot and once for the
`4h` slot — because the fetch sits inside the per-timeframe loop, not in
a per-symbol cache. -/
theorem record_expired_price_not_cached :
    ((record_expired_predictions recEnv0).1.count (RecOp.fetchPrice "BTC")) = 2 := by
  rfl

/-- Claim C6 (amended): within one reconciliation pass the current price
is fetched at most once per (symbol, timeframe) slot — fetched anew for
each slot with a non-empty expired list, not cached per symbol — and
when the fetch for a slot fails, no `record_actual_price` write is issued
for that slot. -/
theorem record_expired_slot_spec (env : RecEnv) (symbol timeframe : String) :
    ((process_slot env symbol timeframe).1.count (RecOp.fetchPrice symbol) ≤ 1) ∧
    (env.price symbol = none →
      ∀ pid s, RecOp.writeActual pid s ∉ (process_slot env symbol timeframe).1) ∧
    (env.expired symbol timeframe = .ok [] →
      (process_slot env symbol timeframe).1 = [RecOp.readExpired symbol timeframe]) := by
  refine ⟨?_, ?_, ?_⟩
  · match hexp : env.expired symbol timeframe with
    | .error e => simp [process_slot, hexp]
    | .ok preds =>
      by_cases hp : preds = []
      · simp [process_slot, hexp, hp]
      · match hpr : env.price symbol with
        | none => simp [process_slot, hexp, hp, hpr, List.count_cons]
        | some p =>
          simp [process_slot, hexp, hp, hpr, List.count_append, List.count_cons,
            process_preds_no_fetch env (format2USD p) preds symbol]
  · intro hpr pid s hmem
    match hexp : env.expired symbol timeframe with
    | .error e =>
      rw [process_slot.eq_def] at hmem
      simp [hexp] at hmem
    | .ok preds =>
      by_cases hp : preds = []
      · rw [process_slot.eq_def] at hmem
        simp [hexp, hp] at hmem
      · rw [process_slot.eq_def] at hmem
        simp [hexp, hp, hpr] at hmem
  · intro hexp
    simp [process_slot, hexp]

/-- Witness for C6 (amended): in the counterexample environment, a slot
whose price fetch fails issues no writes; here with prices available the
`1h` slot fetches at most once. -/
theorem record_expired_slot_spec_witness :
    ((process_slot recEnv0 "BTC" "1h").1.count (RecOp.fetchPrice "BTC") ≤ 1) ∧
    (process_slot recEnv0 "BTC" "12h").1 = [RecOp.readExpired "BTC" "12h"] :=
  ⟨(record_expired_slot_spec recEnv0 "BTC" "1h").1,
   (record_expired_slot_spec recEnv0 "BTC" "12h").2.2 (by rfl)⟩

end Oracle
